import Mathlib

/-!
Shallow embedding of the stateful core of the `lit-ui-kit` component library:
the `Modal` component's open/close lifecycle, cancellable-close protocol and
focus-cycling state, the shared `FormAssociatedElement` form-participation
protocol, and the `Input` / `Checkbox` validation and toggle logic.

DOM side effects (event emission, native dialog calls, focus moves) are
reified as an explicit action trace returned next to the successor state.
Inputs that the browser supplies (the click target, the native input's
reported checkedness, the query result of a CSS selector, the filtered list
of focusable descendants) are passed as explicit parameters.
-/

/-- Close reasons for the modal, from the `CloseReason` union type. -/
inductive CloseReason
  | escape
  | backdrop
  | button
  | programmatic
deriving DecidableEq, Repr

/-- Observable side effects of the modal's handlers: semantic events emitted
upward, calls into the native dialog, and focus operations.
`scheduleDeferredFocus e` stands for `setTimeout(() => e.focus(), 0)`. -/
inductive UiAction
  | emitOpen
  | emitBeforeClose (reason : CloseReason)
  | emitClose (reason : CloseReason) (returnValue : Option String)
  | dialogShowModal
  | dialogClose (returnValue : Option String)
  | preventNativeDefault
  | focusElem (e : Nat)
  | focusContainer
  | scheduleDeferredFocus (e : Nat)
deriving DecidableEq, Repr

/-- State of a `Modal` component instance.  Focusable descendants are
identified by `Nat` element ids; `openFlag` embeds the reactive `open`
property (`open` is a Lean keyword). -/
structure Modal where
  openFlag : Bool
  closeOnBackdrop : Bool
  closeOnEscape : Bool
  showCloseButton : Bool
  preventClose : Bool
  previouslyFocusedElement : Option Nat
  focusableElements : List Nat
  currentFocusIndex : Nat
deriving DecidableEq, Repr

/-- `Modal._requestClose(reason, returnValue?)`.  The `cancelled` parameter
records whether some `ui-modal-before-close` listener invoked the event's
`preventDefault` callback (the source observes this through the local
`cancelled` flag mutated by the callback). -/
def Modal.requestClose (s : Modal) (reason : CloseReason)
    (returnValue : Option String) (cancelled : Bool) : Modal × List UiAction :=
  if cancelled then
    (s, [UiAction.emitBeforeClose reason])
  else
    ({ s with openFlag := false },
     [UiAction.emitBeforeClose reason,
      UiAction.dialogClose returnValue,
      UiAction.emitClose reason returnValue])

/-- `Modal._handleDialogClick(e)`; `targetIsDialog` embeds
`e.target === this._dialog` (a click on the backdrop). -/
def Modal.handleDialogClick (s : Modal) (targetIsDialog : Bool)
    (cancelled : Bool) : Modal × List UiAction :=
  if targetIsDialog && s.closeOnBackdrop && !s.preventClose then
    s.requestClose CloseReason.backdrop none cancelled
  else
    (s, [])

/-- `Modal._handleDialogCancel(e)`: the native dialog cancel event (ESC key).
When blocked, the source calls `e.preventDefault()` and returns. -/
def Modal.handleDialogCancel (s : Modal) (cancelled : Bool) :
    Modal × List UiAction :=
  if !s.closeOnEscape || s.preventClose then
    (s, [UiAction.preventNativeDefault])
  else
    s.requestClose CloseReason.escape none cancelled

/-- `Modal._handleCloseButtonClick()`. -/
def Modal.handleCloseButtonClick (s : Modal) (cancelled : Bool) :
    Modal × List UiAction :=
  if !s.preventClose then
    s.requestClose CloseReason.button none cancelled
  else
    (s, [])

/-- `Modal.close(returnValue?)`: programmatic close. -/
def Modal.close (s : Modal) (returnValue : Option String) (cancelled : Bool) :
    Modal × List UiAction :=
  s.requestClose CloseReason.programmatic returnValue cancelled

/-- `Modal._handleOpen()`: stores the currently focused element (supplied by
the environment as `activeElem`) and presents the native dialog; the
focusable-list recomputation runs in a later animation frame and is embedded
as the separate operation `Modal.updateFocusableElements`. -/
def Modal.handleOpen (s : Modal) (activeElem : Option Nat) :
    Modal × List UiAction :=
  ({ s with previouslyFocusedElement := activeElem },
   [UiAction.dialogShowModal, UiAction.emitOpen])

/-- `Modal._restoreFocus()`: if a previously focused element is stored,
schedule a deferred (`setTimeout 0`) focus call on it.  The stored
reference is left in place (the source never assigns it back to `null`). -/
def Modal.restoreFocus (s : Modal) : Modal × List UiAction :=
  match s.previouslyFocusedElement with
  | some e => (s, [UiAction.scheduleDeferredFocus e])
  | none => (s, [])

/-- `Modal._updateFocusableElements()`: `newList` is the (environment
supplied) result of the focusable-descendant query after filtering; the
cursor is reset to `0` when it is at or beyond the new length. -/
def Modal.updateFocusableElements (s : Modal) (newList : List Nat) : Modal :=
  { s with
    focusableElements := newList,
    currentFocusIndex :=
      if newList.length ≤ s.currentFocusIndex then 0 else s.currentFocusIndex }

/-- `Modal._focusFirstElement()`. -/
def Modal.focusFirstElement (s : Modal) : Modal × List UiAction :=
  if 0 < s.focusableElements.length then
    ({ s with currentFocusIndex := 0 },
     [UiAction.focusElem (s.focusableElements.getD 0 0)])
  else
    (s, [UiAction.focusContainer])

/-- `Modal._focusNext()`: advance the cursor cyclically and focus it. -/
def Modal.focusNext (s : Modal) : Modal × List UiAction :=
  if s.focusableElements.length = 0 then
    (s, [])
  else
    let i := (s.currentFocusIndex + 1) % s.focusableElements.length
    ({ s with currentFocusIndex := i },
     [UiAction.focusElem (s.focusableElements.getD i 0)])

/-- `Modal._focusPrevious()`: move the cursor backwards, wrapping to the
last entry from `0`. -/
def Modal.focusPrevious (s : Modal) : Modal × List UiAction :=
  if s.focusableElements.length = 0 then
    (s, [])
  else
    let i := if s.currentFocusIndex = 0
      then s.focusableElements.length - 1
      else s.currentFocusIndex - 1
    ({ s with currentFocusIndex := i },
     [UiAction.focusElem (s.focusableElements.getD i 0)])

/-- The Tab branch of `Modal._handleKeydown`: recompute the focusable list,
then cycle forward or backward depending on the shift key. -/
def Modal.handleKeydownTab (s : Modal) (shiftKey : Bool)
    (newList : List Nat) : Modal × List UiAction :=
  if s.openFlag = false then
    (s, [])
  else
    let s1 := s.updateFocusableElements newList
    if s1.focusableElements.length = 0 then
      (s1, [])
    else if shiftKey then
      s1.focusPrevious
    else
      s1.focusNext

/-- The focus-cursor invariant: whenever the focusable-descendant list is
non-empty, the cursor is a valid index into it. -/
def FocusInv (s : Modal) : Prop :=
  s.focusableElements ≠ [] →
    s.currentFocusIndex < s.focusableElements.length

/-- Named validity flags of the `ValidityStateFlags` dictionary that the
components pass to `setValidity`. -/
inductive ValidityFlag
  | valueMissing
  | typeMismatch
  | patternMismatch
  | rangeOverflow
  | rangeUnderflow
  | tooLong
  | tooShort
  | customError
deriving DecidableEq, Repr

/-- The relevant part of the native `ValidityState` the browser reports on
the inner `<input>` element. -/
structure ValidityState where
  valid : Bool
  valueMissing : Bool
  typeMismatch : Bool
  patternMismatch : Bool
  rangeOverflow : Bool
  rangeUnderflow : Bool
  tooLong : Bool
  tooShort : Bool
deriving DecidableEq, Repr

/-- State of the `ElementInternals` form participation handle: the form
value last set via `setFormValue`, and the flags/message last set via the
handle's `setValidity`. -/
structure Internals where
  formValue : String
  validityFlags : List ValidityFlag
  validityMessage : Option String
deriving DecidableEq, Repr

/-- Semantic events emitted upward by the form-associated components. -/
inductive UiEvent
  | uiInputChange (value : String)
  | uiCheckboxChange (checked : Bool) (value : String)
deriving DecidableEq, Repr

/-- State of a `FormAssociatedElement`: the `name` property, the private
`_value` backing field, and the nullable `internals` handle. -/
structure FormAssociatedElement where
  name : String
  value : String
  internals : Option Internals
deriving DecidableEq, Repr

/-- The `FormAssociatedElement` constructor: `attachInternals()` may throw
(`Except.error`), in which case the catch block stores `null`; the
constructor itself never propagates the exception (it is a total
function of the attach outcome). -/
def FormAssociatedElement.construct (name : String)
    (attach : Except Unit Internals) : FormAssociatedElement :=
  { name := name,
    value := "",
    internals := match attach with
      | Except.ok i => some i
      | Except.error _ => none }

/-- The `value` property setter: stores the new value, forwards it to the
internals handle when present (`this.internals?.setFormValue(val)`), and
emits no event. -/
def FormAssociatedElement.setValue (s : FormAssociatedElement) (v : String) :
    FormAssociatedElement × List UiEvent :=
  ({ s with
      value := v,
      internals := s.internals.map (fun i => { i with formValue := v }) },
   [])

/-- `FormAssociatedElement.handleValueChange(newValue)`: same state update
as the setter, followed by emitting `ui-input-change` with the new value. -/
def FormAssociatedElement.handleValueChange (s : FormAssociatedElement)
    (v : String) : FormAssociatedElement × List UiEvent :=
  ({ s with
      value := v,
      internals := s.internals.map (fun i => { i with formValue := v }) },
   [UiEvent.uiInputChange v])

/-- `FormAssociatedElement.setValidity(flags, message?)`: forwards to the
internals handle when present (`if (this.internals?.setValidity)`), and is
a no-op when the handle is absent. -/
def FormAssociatedElement.setValidity (s : FormAssociatedElement)
    (flags : List ValidityFlag) (message : Option String) :
    FormAssociatedElement :=
  match s.internals with
  | some i =>
      let i2 := { i with validityFlags := flags, validityMessage := message }
      { s with internals := some i2 }
  | none => s

/-- The `hasFormIntegration` capability query: `this.internals !== null`. -/
def FormAssociatedElement.hasFormIntegration (s : FormAssociatedElement) :
    Bool :=
  s.internals.isSome

/-- `FormAssociatedElement.formResetCallback()`: clears the value through
the setter. -/
def FormAssociatedElement.formResetCallback (s : FormAssociatedElement) :
    FormAssociatedElement × List UiEvent :=
  s.setValue ""

/-- Renders a nullable number the way a JS template literal does
(`${this.max}` prints `undefined` when the property is unset). -/
def jsNum : Option Int → String
  | some n => toString n
  | none => "undefined"

/-- State of the `Input` component relevant to validation: the inherited
form-association state, the `errorMessage` property, the private
`_validationError` flag, and the numeric constraint properties that are
interpolated into the canned messages. -/
structure Input where
  fa : FormAssociatedElement
  errorMessage : String
  validationError : Bool
  min : Option Int
  max : Option Int
  maxlength : Option Int
deriving DecidableEq, Repr

/-- The body each branch of `Input._validateInput` executes:
`this.errorMessage = m; this.setValidity({ flag: true }, m)`. -/
def Input.reportFlag (s1 : Input) (f : ValidityFlag) (m : String) :
    Input × (List ValidityFlag × Option String) :=
  let s2 := { s1 with errorMessage := m }
  ({ s2 with fa := s2.fa.setValidity [f] (some m) }, ([f], some m))

/-- `Input._validateInput()`, given the native validity state `v` of the
inner `<input>`: first clear a previous validation-produced error, then walk
the if/else chain over the failing constraints, set the canned message and
call `setValidity` with the single matching flag (or with the empty flag
set when the input is valid).  Returns the updated component state together
with the `(flags, message)` argument pair of the `setValidity` call. -/
def Input.validateInput (s : Input) (v : ValidityState) :
    Input × (List ValidityFlag × Option String) :=
  let s0 := if s.validationError
    then { s with errorMessage := "", validationError := false }
    else s
  if v.valid = false then
    let s1 := { s0 with validationError := true }
    if v.valueMissing then
      s1.reportFlag ValidityFlag.valueMissing "This field is required"
    else if v.typeMismatch then
      s1.reportFlag ValidityFlag.typeMismatch "Please enter a valid value"
    else if v.patternMismatch then
      s1.reportFlag ValidityFlag.patternMismatch
        "Please match the requested format"
    else if v.rangeOverflow then
      s1.reportFlag ValidityFlag.rangeOverflow
        ("Value must be less than or equal to " ++ jsNum s.max)
    else if v.rangeUnderflow then
      s1.reportFlag ValidityFlag.rangeUnderflow
        ("Value must be greater than or equal to " ++ jsNum s.min)
    else if v.tooLong then
      s1.reportFlag ValidityFlag.tooLong
        ("Value must be no more than " ++ jsNum s.maxlength ++ " characters")
    else
      s1.reportFlag ValidityFlag.customError "Please enter a valid value"
  else
    ({ s0 with fa := s0.fa.setValidity [] none }, ([], none))

/-- Modelled from the spec: the fixed priority order the specification
claims for the blur-time validation mapping, namely
valueMissing > typeMismatch/tooShort > tooLong > patternMismatch >
rangeOverflow/rangeUnderflow > customError.  Written for comparison with
`Input.validateInput`; it is not part of the source. -/
def specPriorityFlag (v : ValidityState) : ValidityFlag :=
  if v.valueMissing then ValidityFlag.valueMissing
  else if v.typeMismatch then ValidityFlag.typeMismatch
  else if v.tooShort then ValidityFlag.tooShort
  else if v.tooLong then ValidityFlag.tooLong
  else if v.patternMismatch then ValidityFlag.patternMismatch
  else if v.rangeOverflow then ValidityFlag.rangeOverflow
  else if v.rangeUnderflow then ValidityFlag.rangeUnderflow
  else ValidityFlag.customError

/-- The priority order the code actually implements in its if/else chain:
valueMissing > typeMismatch > patternMismatch > rangeOverflow >
rangeUnderflow > tooLong, everything else (including tooShort) falling
through to the customError fallback. -/
def codePriorityFlag (v : ValidityState) : ValidityFlag :=
  if v.valueMissing then ValidityFlag.valueMissing
  else if v.typeMismatch then ValidityFlag.typeMismatch
  else if v.patternMismatch then ValidityFlag.patternMismatch
  else if v.rangeOverflow then ValidityFlag.rangeOverflow
  else if v.rangeUnderflow then ValidityFlag.rangeUnderflow
  else if v.tooLong then ValidityFlag.tooLong
  else ValidityFlag.customError

/-- The canned message the code associates with each reported flag, with
the component's constraint properties interpolated. -/
def codeMessageFor (s : Input) : ValidityFlag → String
  | ValidityFlag.valueMissing => "This field is required"
  | ValidityFlag.typeMismatch => "Please enter a valid value"
  | ValidityFlag.patternMismatch => "Please match the requested format"
  | ValidityFlag.rangeOverflow =>
      "Value must be less than or equal to " ++ jsNum s.max
  | ValidityFlag.rangeUnderflow =>
      "Value must be greater than or equal to " ++ jsNum s.min
  | ValidityFlag.tooLong =>
      "Value must be no more than " ++ jsNum s.maxlength ++ " characters"
  | ValidityFlag.tooShort => "Please enter a valid value"
  | ValidityFlag.customError => "Please enter a valid value"

/-- State of the `Checkbox` component relevant to toggling: the inherited
form-association state and the `checked` / `indeterminate` / `disabled`
reactive properties. -/
structure Checkbox where
  fa : FormAssociatedElement
  checked : Bool
  indeterminate : Bool
  disabled : Bool
deriving DecidableEq, Repr

/-- `Checkbox.toggle()`: clears `indeterminate` if set, flips `checked`,
propagates the form value through `handleValueChange` (the configured value
when checked, the empty string when unchecked), and then emits
`ui-checkbox-change` reading `this.checked` and `this.value` after that
propagation. -/
def Checkbox.toggle (s : Checkbox) : Checkbox × List UiEvent :=
  if s.disabled then
    (s, [])
  else
    let s1 := if s.indeterminate then { s with indeterminate := false } else s
    let s2 := { s1 with checked := !s1.checked }
    let hv := s2.fa.handleValueChange (if s2.checked then s2.fa.value else "")
    let s3 := { s2 with fa := hv.1 }
    (s3, hv.2 ++ [UiEvent.uiCheckboxChange s3.checked s3.fa.value])

/-- `Checkbox._handleChange(e)`: reacts to the native input's change event;
`newChecked` embeds `e.target.checked`.  Clears `indeterminate`, adopts the
native checkedness, propagates the form value, and emits
`ui-checkbox-change` reading `this.value` after the propagation. -/
def Checkbox.handleChange (s : Checkbox) (newChecked : Bool) :
    Checkbox × List UiEvent :=
  let s1 := if s.indeterminate then { s with indeterminate := false } else s
  let s2 := { s1 with checked := newChecked }
  let hv := s2.fa.handleValueChange (if newChecked then s2.fa.value else "")
  let s3 := { s2 with fa := hv.1 }
  (s3, hv.2 ++ [UiEvent.uiCheckboxChange newChecked s3.fa.value])

/-- A descendant `<form>` element as the modal's form helpers see it: which
of the (browser-dependent) methods exist, its native validity, and its
entries as name/value pairs. -/
structure FormEl where
  hasRequestSubmit : Bool
  hasSubmit : Bool
  hasCheckValidity : Bool
  valid : Bool
  data : List (String × String)
deriving DecidableEq, Repr

/-- Submission calls a form helper can make on the located form. -/
inductive FormAction
  | requestSubmit
  | legacySubmit
deriving DecidableEq, Repr

/-- `Modal.submitForm(formSelector)`: `found` is the result of
`this.querySelector(formSelector)` (none when no descendant matches).
Prefers `requestSubmit`, falls back to `submit`, and returns `false`
without throwing when no form is found. -/
def Modal.submitForm (found : Option FormEl) : Bool × List FormAction :=
  match found with
  | some f =>
      if f.hasRequestSubmit then (true, [FormAction.requestSubmit])
      else if f.hasSubmit then (true, [FormAction.legacySubmit])
      else (false, [])
  | none => (false, [])

/-- `Modal.validateForm(formSelector)`: the located form's
`checkValidity()` result, or `false` when no form is found. -/
def Modal.validateForm (found : Option FormEl) : Bool :=
  match found with
  | some f => if f.hasCheckValidity then f.valid else false
  | none => false

/-- `Modal.getFormData(formSelector)`: `new FormData(form)` for the located
form, or `null` when no form is found. -/
def Modal.getFormData (found : Option FormEl) :
    Option (List (String × String)) :=
  match found with
  | some f => some f.data
  | none => none

/-! Concrete component states used to instantiate the theorems below. -/

/-- An open modal with default configuration and two focusable descendants. -/
def sampleModalC1 : Modal :=
  { openFlag := true, closeOnBackdrop := true, closeOnEscape := true,
    showCloseButton := true, preventClose := false,
    previouslyFocusedElement := some 7, focusableElements := [3, 4],
    currentFocusIndex := 0 }

/-- An open modal configured with `preventClose = true`. -/
def sampleModalC2 : Modal :=
  { openFlag := true, closeOnBackdrop := true, closeOnEscape := true,
    showCloseButton := true, preventClose := true,
    previouslyFocusedElement := some 7, focusableElements := [3, 4],
    currentFocusIndex := 0 }

/-- An open modal holding a previously-focused-element reference. -/
def sampleModalC9 : Modal :=
  { openFlag := true, closeOnBackdrop := true, closeOnEscape := true,
    showCloseButton := true, preventClose := false,
    previouslyFocusedElement := some 7, focusableElements := [],
    currentFocusIndex := 0 }

/-- An open modal whose cursor sits at the second of two descendants. -/
def sampleModalC10 : Modal :=
  { openFlag := true, closeOnBackdrop := true, closeOnEscape := true,
    showCloseButton := true, preventClose := false,
    previouslyFocusedElement := none, focusableElements := [3, 4],
    currentFocusIndex := 1 }

/-- An input with a maxlength constraint and working form integration. -/
def sampleInputC4 : Input :=
  { fa := { name := "f", value := "x", internals := some ⟨"", [], none⟩ },
    errorMessage := "", validationError := false,
    min := none, max := none, maxlength := some 5 }

/-- A validity state in which both `tooLong` and `patternMismatch` fail. -/
def sampleValidityC4 : ValidityState :=
  { valid := false, valueMissing := false, typeMismatch := false,
    patternMismatch := true, rangeOverflow := false, rangeUnderflow := false,
    tooLong := true, tooShort := false }

/-- A checkbox that is simultaneously checked and indeterminate. -/
def sampleCheckboxC5 : Checkbox :=
  { fa := { name := "cb", value := "on", internals := some ⟨"", [], none⟩ },
    checked := true, indeterminate := true, disabled := false }

/-- An unchecked checkbox configured with a custom submission value. -/
def sampleCheckboxC6 : Checkbox :=
  { fa := { name := "terms", value := "custom-value",
            internals := some ⟨"", [], none⟩ },
    checked := false, indeterminate := false, disabled := false }

/-- A descendant form with all native methods available and one field. -/
def sampleFormC8 : FormEl :=
  { hasRequestSubmit := true, hasSubmit := true, hasCheckValidity := true,
    valid := true, data := [("testField", "testValue")] }

/-- C1: every close request on an open modal first emits the cancellable
`ui-modal-before-close` event carrying the request reason; if the
cancellation callback is invoked the `open` flag stays `true` and no
`ui-modal-close` is emitted, otherwise `open` becomes `false` and
`ui-modal-close` is emitted with that reason and return value. -/
theorem modal_request_close_protocol (s : Modal) (reason : CloseReason)
    (rv : Option String) (cancelled : Bool) (h : s.openFlag = true) :
    ((s.requestClose reason rv cancelled).2.head? =
        some (UiAction.emitBeforeClose reason)) ∧
    (cancelled = true →
      (s.requestClose reason rv cancelled).1.openFlag = true ∧
      ∀ r v, UiAction.emitClose r v ∉ (s.requestClose reason rv cancelled).2) ∧
    (cancelled = false →
      (s.requestClose reason rv cancelled).1.openFlag = false ∧
      UiAction.emitClose reason rv ∈ (s.requestClose reason rv cancelled).2) := by
  cases cancelled <;> simp_all [Modal.requestClose]

/-- Witness for C1: an uncancelled backdrop-reason close request on a
concrete open modal clears the `open` flag. -/
theorem modal_request_close_protocol_witness :
    (sampleModalC1.requestClose CloseReason.backdrop none false).1.openFlag
      = false :=
  ((modal_request_close_protocol sampleModalC1 CloseReason.backdrop none false
    rfl).2.2 rfl).1

/-- C2: with `preventClose = true` the close-button handler does nothing
(no state change, no events) and the escape handler only suppresses the
native dialog cancel (no state change, no before-close event), while the
programmatic `close()` call is exactly the normal cancellable request-close
protocol and clears the `open` flag when not cancelled. -/
theorem modal_prevent_close_paths (s : Modal) (rv : Option String)
    (cancelled : Bool) (h : s.preventClose = true) :
    s.handleCloseButtonClick cancelled = (s, []) ∧
    s.handleDialogCancel cancelled = (s, [UiAction.preventNativeDefault]) ∧
    s.close rv cancelled =
      s.requestClose CloseReason.programmatic rv cancelled ∧
    (cancelled = false → (s.close rv cancelled).1.openFlag = false) := by
  refine ⟨?_, ?_, rfl, ?_⟩
  · simp [Modal.handleCloseButtonClick, h]
  · simp [Modal.handleDialogCancel, h]
  · intro hc
    simp [Modal.close, Modal.requestClose, hc]

/-- Witness for C2: on a concrete `preventClose` modal the close-button
handler is inert. -/
theorem modal_prevent_close_paths_witness :
    sampleModalC2.handleCloseButtonClick true = (sampleModalC2, []) :=
  (modal_prevent_close_paths sampleModalC2 none true rfl).1

/-- C3: programmatically setting `value` and calling `handleValueChange`
produce identical states (stored value and form participation handle both
updated), but only `handleValueChange` emits `ui-input-change` with the new
value; the setter emits nothing. -/
theorem fa_programmatic_vs_user_value_change (s : FormAssociatedElement)
    (v : String) :
    (s.setValue v).1 = (s.handleValueChange v).1 ∧
    (s.setValue v).1.value = v ∧
    (s.setValue v).1.internals
      = s.internals.map (fun i => { i with formValue := v }) ∧
    (s.setValue v).2 = [] ∧
    (s.handleValueChange v).2 = [UiEvent.uiInputChange v] :=
  ⟨rfl, rfl, rfl, rfl, rfl⟩

/-- C7: when attaching internals fails, construction degrades to a state
with no handle, `hasFormIntegration` is `false` and every `setValidity`
call is a no-op; when it succeeds, `hasFormIntegration` is `true` and
`setValidity` forwards flags and message to the handle. -/
theorem fa_form_integration_degrades (n : String) (i : Internals)
    (flags : List ValidityFlag) (msg : Option String)
    (s : FormAssociatedElement) (h : s.internals = none) :
    (FormAssociatedElement.construct n (Except.error ())).hasFormIntegration
      = false ∧
    s.setValidity flags msg = s ∧
    (FormAssociatedElement.construct n (Except.ok i)).hasFormIntegration
      = true ∧
    ((FormAssociatedElement.construct n
        (Except.ok i)).setValidity flags msg).internals
      = some { i with validityFlags := flags, validityMessage := msg } := by
  refine ⟨rfl, ?_, rfl, rfl⟩
  simp [FormAssociatedElement.setValidity, h]

/-- Witness for C7: `setValidity` on a concretely degraded element is the
identity. -/
theorem fa_form_integration_degrades_witness :
    (FormAssociatedElement.construct "a" (Except.error ())).setValidity
        [ValidityFlag.customError] (some "m")
      = FormAssociatedElement.construct "a" (Except.error ()) :=
  (fa_form_integration_degrades "a" ⟨"", [], none⟩ [ValidityFlag.customError]
    (some "m") (FormAssociatedElement.construct "a" (Except.error ())) rfl).2.1

/-- C4 counterexample: on a validity state where both `tooLong` and
`patternMismatch` fail, the spec's priority order picks `tooLong`, but the
code's if/else chain reports `patternMismatch` (with the pattern message),
so the claimed order is not the one implemented. -/
theorem input_validation_priority_cex :
    (sampleInputC4.validateInput sampleValidityC4).2.1
        = [ValidityFlag.patternMismatch] ∧
    (sampleInputC4.validateInput sampleValidityC4).1.errorMessage
        = "Please match the requested format" ∧
    specPriorityFlag sampleValidityC4 = ValidityFlag.tooLong ∧
    (sampleInputC4.validateInput sampleValidityC4).2.1
        ≠ [specPriorityFlag sampleValidityC4] := by
  refine ⟨rfl, rfl, rfl, ?_⟩
  decide

/-- C4 (amended): on blur-time validation of an invalid input, the flag
passed to `setValidity` and the displayed `errorMessage` follow the code's
actual fixed priority order valueMissing > typeMismatch > patternMismatch >
rangeOverflow > rangeUnderflow > tooLong, with every other failure
(including `tooShort`) falling through to the `customError` fallback; the
message is the canned message of the reported flag and the internal
validation-error flag is set. -/
theorem input_validation_code_priority (s : Input) (v : ValidityState)
    (h : v.valid = false) :
    (s.validateInput v).2.1 = [codePriorityFlag v] ∧
    (s.validateInput v).1.errorMessage = codeMessageFor s (codePriorityFlag v) ∧
    (s.validateInput v).2.2 = some (codeMessageFor s (codePriorityFlag v)) ∧
    (s.validateInput v).1.validationError = true := by
  obtain ⟨vv, vm, tm, pm, ro, ru, tl, ts⟩ := v
  simp only at h
  subst h
  cases vm <;> cases tm <;> cases pm <;> cases ro <;> cases ru <;> cases tl <;>
    simp [Input.validateInput, Input.reportFlag, codePriorityFlag,
      codeMessageFor]

/-- Witness for C4 (amended): evaluating the amended statement on the
concrete two-failure validity state. -/
theorem input_validation_code_priority_witness :
    (sampleInputC4.validateInput sampleValidityC4).2.1
      = [codePriorityFlag sampleValidityC4] :=
  (input_validation_code_priority sampleInputC4 sampleValidityC4 rfl).1

/-- C5: evaluation at the failing input.  On a checkbox that is both
checked and indeterminate, `toggle()` clears `indeterminate` but lands on
`checked = false`, although the claim (and the method's own doc comment)
says a toggle from indeterminate always yields `checked = true`, never
`false`: the code flips `checked` instead of forcing it to `true`. -/
theorem checkbox_toggle_from_indeterminate_checked :
    (sampleCheckboxC5.toggle).1.indeterminate = false ∧
    (sampleCheckboxC5.toggle).1.checked = false := by
  decide

/-- C6: evaluation at the failing input.  Unchecking calls
`handleValueChange("")`, which overwrites the configured `value` property
with the empty string; after a check/uncheck/re-check sequence starting
from `value = "custom-value"`, the third `ui-checkbox-change` fires with
`checked = true` but carries `value = ""` instead of the configured value
(and the form value submitted while checked is also `""`).  The first
check still carries the configured value. -/
theorem checkbox_value_lost_after_uncheck :
    ((sampleCheckboxC6.toggle).2
        = [UiEvent.uiInputChange "custom-value",
           UiEvent.uiCheckboxChange true "custom-value"]) ∧
    ((((sampleCheckboxC6.toggle).1.toggle).1.toggle).1.checked = true) ∧
    ((((sampleCheckboxC6.toggle).1.toggle).1.toggle).2
        = [UiEvent.uiInputChange "", UiEvent.uiCheckboxChange true ""]) ∧
    ((((sampleCheckboxC6.toggle).1.toggle).1.toggle).1.fa.value = "") := by
  decide

/-- C8: the modal form helpers report a missing form via definite failure
values (`false` / `false` / `none`) without throwing, and on a located form
with a native submit capability `submitForm` performs a submission and
returns `true` while `getFormData` returns the form's entries. -/
theorem modal_form_helpers_total (f : FormEl)
    (h : f.hasRequestSubmit = true ∨ f.hasSubmit = true) :
    Modal.submitForm none = (false, []) ∧
    Modal.validateForm none = false ∧
    Modal.getFormData none = none ∧
    (Modal.submitForm (some f)).1 = true ∧
    (Modal.submitForm (some f)).2 ≠ [] ∧
    Modal.getFormData (some f) = some f.data := by
  have hs : (Modal.submitForm (some f)).1 = true ∧
      (Modal.submitForm (some f)).2 ≠ [] := by
    rcases h with h | h
    · simp [Modal.submitForm, h]
    · by_cases hr : f.hasRequestSubmit <;> simp [Modal.submitForm, h, hr]
  exact ⟨rfl, rfl, rfl, hs.1, hs.2, rfl⟩

/-- Witness for C8: submitting the concrete located form succeeds. -/
theorem modal_form_helpers_total_witness :
    (Modal.submitForm (some sampleFormC8)).1 = true :=
  (modal_form_helpers_total sampleFormC8 (Or.inl rfl)).2.2.2.1

/-- C9 counterexample: an uncancelled programmatic close of a concrete open
modal clears `open` and emits the close events, but its action trace
contains no focus-restoration step and the stored previously-focused
element reference is still present afterwards — the reference is not
released by the close, contrary to the claim. -/
theorem modal_close_keeps_focus_ref_cex :
    ((sampleModalC9.requestClose CloseReason.programmatic none false).1.openFlag
        = false) ∧
    ((sampleModalC9.requestClose CloseReason.programmatic none
        false).1.previouslyFocusedElement = some 7) ∧
    ((sampleModalC9.requestClose CloseReason.programmatic none false).2
        = [UiAction.emitBeforeClose CloseReason.programmatic,
           UiAction.dialogClose none,
           UiAction.emitClose CloseReason.programmatic none]) := by
  decide

/-- C9 (amended): the component's own focus restoration lives in
`_restoreFocus` (run from `disconnectedCallback`, with the native dialog
handling restoration on close): it schedules the focus call for a later
tick (`setTimeout 0`) on the stored previously-focused element, leaves the
component state unchanged, and never releases the stored reference; an
uncancelled close likewise leaves the reference in place. -/
theorem modal_restore_focus_deferred (s : Modal) (e : Nat)
    (h : s.previouslyFocusedElement = some e) :
    (s.restoreFocus).2 = [UiAction.scheduleDeferredFocus e] ∧
    (s.restoreFocus).1 = s ∧
    (s.restoreFocus).1.previouslyFocusedElement = some e ∧
    ∀ reason rv,
      ((s.requestClose reason rv false).1.previouslyFocusedElement = some e) := by
  refine ⟨?_, ?_, ?_, ?_⟩ <;>
    simp [Modal.restoreFocus, Modal.requestClose, h]

/-- Witness for C9 (amended): the concrete modal's restore schedules a
deferred focus on the stored element. -/
theorem modal_restore_focus_deferred_witness :
    (sampleModalC9.restoreFocus).2 = [UiAction.scheduleDeferredFocus 7] :=
  (modal_restore_focus_deferred sampleModalC9 7 rfl).1

/-- Recomputing the focusable list always re-establishes the focus-cursor
invariant: an out-of-bounds cursor is reset to `0`. -/
theorem focusInv_update (t : Modal) (l : List Nat) :
    FocusInv (t.updateFocusableElements l) := by
  intro hne
  simp only [Modal.updateFocusableElements] at hne ⊢
  by_cases hle : l.length ≤ t.currentFocusIndex
  · simp only [hle, if_pos]
    exact List.length_pos.mpr hne
  · simp only [hle, if_neg, not_false_iff]
    omega

/-- Cyclic forward movement keeps the cursor in bounds (the new cursor is
taken modulo the list length). -/
theorem focusInv_focusNext (t : Modal) : FocusInv (t.focusNext).1 := by
  unfold FocusInv Modal.focusNext
  by_cases h0 : t.focusableElements.length = 0
  · simp only [h0, if_pos]
    intro hne
    exact absurd (List.length_eq_zero.mp h0) hne
  · simp only [h0, if_neg, not_false_iff]
    intro _
    exact Nat.mod_lt _ (Nat.pos_of_ne_zero h0)

/-- Focusing the first element keeps the cursor in bounds. -/
theorem focusInv_focusFirst (t : Modal) :
    FocusInv (t.focusFirstElement).1 := by
  unfold FocusInv Modal.focusFirstElement
  by_cases h0 : 0 < t.focusableElements.length
  · rw [if_pos h0]
    intro _
    exact h0
  · rw [if_neg h0]
    intro hne
    exact absurd (List.length_pos.mpr hne) h0

/-- Backward movement preserves the focus-cursor invariant: from `0` it
wraps to the last index, otherwise it decrements. -/
theorem focusInv_focusPrevious (t : Modal) (h : FocusInv t) :
    FocusInv (t.focusPrevious).1 := by
  unfold FocusInv Modal.focusPrevious
  by_cases h0 : t.focusableElements.length = 0
  · rw [if_pos h0]
    exact h
  · rw [if_neg h0]
    intro hne
    have hc := h hne
    by_cases hz : t.currentFocusIndex = 0
    · rw [if_pos hz]
      show t.focusableElements.length - 1 < t.focusableElements.length
      omega
    · rw [if_neg hz]
      show t.currentFocusIndex - 1 < t.focusableElements.length
      omega

/-- The Tab keydown path (recompute, then cycle) preserves the invariant. -/
theorem focusInv_keydownTab (t : Modal) (shiftKey : Bool) (l : List Nat)
    (h : FocusInv t) : FocusInv (t.handleKeydownTab shiftKey l).1 := by
  unfold Modal.handleKeydownTab
  by_cases ho : t.openFlag = false
  · simp only [ho, if_pos]
    exact h
  · simp only [ho, if_neg, not_false_iff]
    by_cases hl : (t.updateFocusableElements l).focusableElements.length = 0
    · simp only [hl, if_pos]
      exact focusInv_update t l
    · simp only [hl, if_neg, not_false_iff]
      by_cases hs : shiftKey
      · simp only [hs, if_pos]
        exact focusInv_focusPrevious _ (focusInv_update t l)
      · simp only [hs, if_neg, not_false_iff]
        exact focusInv_focusNext _

/-- C10: the focus-cursor invariant — the cursor is a valid index whenever
the focusable-descendant list is non-empty — is preserved by every
operation that touches the list or the cursor; recomputation resets an
out-of-bounds cursor to `0`, and forward cycling wraps modulo the list
length. -/
theorem modal_focus_cursor_invariant (s : Modal) (newList : List Nat)
    (shiftKey : Bool) (h : FocusInv s) :
    FocusInv (s.updateFocusableElements newList) ∧
    FocusInv (s.focusFirstElement).1 ∧
    FocusInv (s.focusNext).1 ∧
    FocusInv (s.focusPrevious).1 ∧
    FocusInv (s.handleKeydownTab shiftKey newList).1 ∧
    (newList.length ≤ s.currentFocusIndex →
      (s.updateFocusableElements newList).currentFocusIndex = 0) ∧
    (s.focusableElements.length ≠ 0 →
      (s.focusNext).1.currentFocusIndex =
        (s.currentFocusIndex + 1) % s.focusableElements.length) := by
  refine ⟨focusInv_update s newList, focusInv_focusFirst s,
    focusInv_focusNext s, focusInv_focusPrevious s h,
    focusInv_keydownTab s shiftKey newList h, ?_, ?_⟩
  · intro hle
    simp [Modal.updateFocusableElements, hle]
  · intro hlen
    simp [Modal.focusNext, hlen]

/-- Witness for C10: on a concrete open modal with two focusable
descendants and cursor `1`, forward cycling wraps to index `(1 + 1) % 2`. -/
theorem modal_focus_cursor_invariant_witness :
    (sampleModalC10.focusNext).1.currentFocusIndex =
      (sampleModalC10.currentFocusIndex + 1) %
        sampleModalC10.focusableElements.length :=
  (modal_focus_cursor_invariant sampleModalC10 [] false
    (by intro hne; decide)).2.2.2.2.2.2 (by decide)
